import Mathlib

/-!
Verification of the base-go-gin-api CRUD service: a shallow embedding of the
user model, DTO conversions, pagination metadata, the Redis-backed cache
helpers, the GORM-backed user store, the `UserService` operations, the
request-logging middleware's redaction helpers, and the RabbitMQ event
wrappers, together with proofs about the claims of the specification.

Modelling conventions:
* Go `uint` ids and unix timestamps become `Nat`; Go `int`/`int64` become
  `Int` where signedness matters (pagination), with Go's truncating integer
  division rendered as `Int.tdiv`.
* Strings are Lean `String`s; case folding and substring search are done on
  the underlying character lists (ASCII, which covers every constant the
  program compares against).
* The Redis cache is an association list of key/entry pairs; `set`
  overwrites, `delete` removes, `get` looks up.  Expiration timing is not
  modelled; each entry records the TTL it was stored with.
* The GORM store is a list of rows plus a next-id counter.  `First` returns
  the first live (not soft-deleted) row with the requested id, `Create`
  assigns the next id and timestamps, `Save` replaces the row with the same
  id bumping `updatedAt`, `Delete` is a soft delete setting `deletedAt`.
* Environmental failures of the store (`Create`/`Save`/`Delete` returning a
  non-not-found error) are injected through explicit boolean fault
  parameters; bcrypt hashing is an uninterpreted function parameter.
* Each service operation returns the post-state together with an
  `Except String` result, mirroring the Go `(value, error)` convention.
-/

/-- `models.User` (src/models/user.go): gorm model with soft delete. -/
structure User where
  id : Nat
  username : String
  email : String
  password : String
  firstName : String
  lastName : String
  isActive : Bool
  createdAt : Nat
  updatedAt : Nat
  deletedAt : Option Nat
  deriving Repr, DecidableEq

/-- `dto.UserResponse` (src/dto/user_dto.go): the public user payload. -/
structure UserResponse where
  id : Nat
  username : String
  email : String
  firstName : String
  lastName : String
  isActive : Bool
  createdAt : Nat
  updatedAt : Nat
  deriving Repr, DecidableEq

/-- `dto.CreateUserRequest` (src/dto/user_dto.go). -/
structure CreateUserRequest where
  username : String
  email : String
  password : String
  firstName : String
  lastName : String
  deriving Repr, DecidableEq

/-- `dto.UpdateUserRequest` (src/dto/user_dto.go); `IsActive *bool` becomes
`Option Bool`. -/
structure UpdateUserRequest where
  username : String
  email : String
  firstName : String
  lastName : String
  isActive : Option Bool
  deriving Repr, DecidableEq

/-- `(u *User) ToDTO` (src/models/user.go:31-42). -/
def User.toDTO (u : User) : UserResponse :=
  { id := u.id
    username := u.username
    email := u.email
    firstName := u.firstName
    lastName := u.lastName
    isActive := u.isActive
    createdAt := u.createdAt
    updatedAt := u.updatedAt }

/-- `(u *User) FromCreateDTO` (src/models/user.go:45-52). -/
def User.fromCreateDTO (u : User) (req : CreateUserRequest) : User :=
  { u with
    username := req.username
    email := req.email
    password := req.password
    firstName := req.firstName
    lastName := req.lastName
    isActive := true }

/-- `(u *User) UpdateFromDTO` (src/models/user.go:55-71): empty strings and
nil pointer mean "leave unchanged". -/
def User.updateFromDTO (u : User) (req : UpdateUserRequest) : User :=
  let u := if req.username ≠ "" then { u with username := req.username } else u
  let u := if req.email ≠ "" then { u with email := req.email } else u
  let u := if req.firstName ≠ "" then { u with firstName := req.firstName } else u
  let u := if req.lastName ≠ "" then { u with lastName := req.lastName } else u
  match req.isActive with
  | some b => { u with isActive := b }
  | none => u

/-- The zero `models.User` produced by `var user models.User`. -/
def User.zero : User :=
  { id := 0, username := "", email := "", password := "", firstName := ""
    lastName := "", isActive := false, createdAt := 0, updatedAt := 0
    deletedAt := none }

/-- `dto.PaginationMeta` (src/dto/user_dto.go:94-101). -/
structure PaginationMeta where
  currentPage : Int
  perPage : Int
  totalPages : Int
  totalItems : Int
  hasNextPage : Bool
  hasPrevPage : Bool
  deriving Repr, DecidableEq

/-- Two's-complement wrap into `int64`: Go integer arithmetic is defined to
wrap on overflow, so every `int64` intermediate is reduced into
`[-2^63, 2^63)`. -/
def wrap64 (x : Int) : Int := (x + 2 ^ 63) % 2 ^ 64 - 2 ^ 63

/-- `dto.NewPaginationMeta` (src/dto/user_dto.go:306-317).  Go's `/` on
`int64` truncates toward zero, hence `Int.tdiv`; the `int64` sum
`totalItems + int64(perPage) - 1` and the quotient wrap on overflow, hence
`wrap64` (the quotient wraps only at `MinInt64 / -1`). -/
def NewPaginationMeta (currentPage perPage totalItems : Int) : PaginationMeta :=
  let totalPages := wrap64 (Int.tdiv (wrap64 (totalItems + perPage - 1)) perPage)
  { currentPage := currentPage
    perPage := perPage
    totalPages := totalPages
    totalItems := totalItems
    hasNextPage := decide (currentPage < totalPages)
    hasPrevPage := decide (currentPage > 1) }

/-! ## Cache model (package cache, src/unnamed/part_000) -/

/-- A Redis entry as written by `cache.Set`: the serialized value together
with the expiration it was stored with (nanoseconds). -/
structure CacheEntry where
  value : User
  ttl : Nat
  deriving Repr, DecidableEq

/-- The Redis keyspace: an association list, most recent binding first. -/
abbrev CacheState : Type := List (String × CacheEntry)

/-- `cache.Set key value expiration`: overwrite the binding for `key`. -/
def Cache.set (c : CacheState) (key : String) (v : User) (ttl : Nat) : CacheState :=
  (key, { value := v, ttl := ttl }) :: c.filter (fun p => p.1 != key)

/-- `cache.Get key`: `some` on hit, `none` when the key is absent
(redis.Nil). -/
def Cache.get (c : CacheState) (key : String) : Option User :=
  (c.find? (fun p => p.1 == key)).map (fun p => p.2.value)

/-- `cache.Delete key`. -/
def Cache.delete (c : CacheState) (key : String) : CacheState :=
  c.filter (fun p => p.1 != key)

/-- `1 * time.Hour` in nanoseconds, the TTL passed to every `cache.Set` in
the user service. -/
def oneHour : Nat := 3600000000000

/-! ## Store model (gorm, package database) -/

/-- The users table plus the store-assigned id sequence. -/
structure DBState where
  rows : List User
  nextId : Nat
  deriving Repr, DecidableEq

/-- `database.DB.First(&user, id)`: first live row with primary key `id`;
gorm excludes soft-deleted rows. -/
def DBState.first (db : DBState) (id : Nat) : Option User :=
  db.rows.find? (fun u => u.id == id && u.deletedAt.isNone)

/-- `database.DB.Create(&user)`: assign the next id and the create/update
timestamps, append the row. -/
def DBState.create (db : DBState) (now : Nat) (u : User) : DBState × User :=
  let u' := { u with id := db.nextId, createdAt := now, updatedAt := now, deletedAt := none }
  ({ rows := db.rows ++ [u'], nextId := db.nextId + 1 }, u')

/-- `database.DB.Save(&user)`: replace the row with the same id, bumping
`updatedAt` (gorm autoupdate). -/
def DBState.save (db : DBState) (now : Nat) (u : User) : DBState × User :=
  let u' := { u with updatedAt := now }
  ({ db with rows := db.rows.map (fun r => if r.id == u'.id then u' else r) }, u')

/-- `database.DB.Delete(&user)` on a model with `gorm.DeletedAt`: soft
delete, stamping `deletedAt` on the live rows with that id. -/
def DBState.softDelete (db : DBState) (now : Nat) (id : Nat) : DBState :=
  { db with
    rows := db.rows.map (fun r =>
      if r.id == id && r.deletedAt.isNone then { r with deletedAt := some now } else r) }

/-! ## UserService (src/services/user_service.go) -/

/-- The service-visible state: the store and the cache. -/
structure SState where
  db : DBState
  cache : CacheState
  deriving Repr, DecidableEq

/-- `fmt.Sprintf("user:%d", id)`, the cache key used throughout the user
service. -/
def userKey (id : Nat) : String := "user:" ++ toString id

/-- `UserService.CreateUser` (src/services/user_service.go:25-46).
`hash` stands for bcrypt; `dbCreateFails` injects a store-create error. -/
def CreateUser (hash : String → String) (dbCreateFails : Bool) (now : Nat)
    (st : SState) (req : CreateUserRequest) : SState × Except String UserResponse :=
  let hashedPassword := hash req.password
  let user := User.zero.fromCreateDTO req
  let user := { user with password := hashedPassword }
  if dbCreateFails then (st, .error "create failed")
  else
    let (db', user) := st.db.create now user
    let cacheKey := userKey user.id
    let cache' := Cache.set st.cache cacheKey user oneHour
    ({ db := db', cache := cache' }, .ok user.toDTO)

/-- `UserService.GetUserByID` (src/services/user_service.go:49-72): cache
first, then the store; a miss that the store satisfies repopulates the
cache; not-found is returned without caching. -/
def GetUserByID (st : SState) (id : Nat) : SState × Except String UserResponse :=
  let cacheKey := userKey id
  match Cache.get st.cache cacheKey with
  | some cachedUser => (st, .ok cachedUser.toDTO)
  | none =>
    match st.db.first id with
    | none => (st, .error "user not found")
    | some user =>
      let cache' := Cache.set st.cache cacheKey user oneHour
      ({ st with cache := cache' }, .ok user.toDTO)

/-- `UserService.UpdateUser` (src/services/user_service.go:156-178): read
from the store, apply the patch, save, then overwrite the cache entry. -/
def UpdateUser (dbSaveFails : Bool) (now : Nat) (st : SState) (id : Nat)
    (req : UpdateUserRequest) : SState × Except String UserResponse :=
  match st.db.first id with
  | none => (st, .error "user not found")
  | some user =>
    let user := user.updateFromDTO req
    if dbSaveFails then (st, .error "save failed")
    else
      let (db', user) := st.db.save now user
      let cacheKey := userKey user.id
      let cache' := Cache.set st.cache cacheKey user oneHour
      ({ db := db', cache := cache' }, .ok user.toDTO)

/-- `UserService.DeleteUser` (src/services/user_service.go:181-199): read,
soft-delete in the store, then delete the cache entry. -/
def DeleteUser (dbDeleteFails : Bool) (now : Nat) (st : SState) (id : Nat) :
    SState × Except String Unit :=
  match st.db.first id with
  | none => (st, .error "user not found")
  | some _user =>
    if dbDeleteFails then (st, .error "delete failed")
    else
      let db' := st.db.softDelete now id
      let cacheKey := userKey id
      let cache' := Cache.delete st.cache cacheKey
      ({ db := db', cache := cache' }, .ok ())

/-! ## Logging middleware (src/middleware/logging.go) -/

/-- The five substrings of `isSensitiveHeader`
(src/middleware/logging.go:96-102). -/
def sensitiveHeaders : List String :=
  ["authorization", "cookie", "x-api-key", "x-auth-token", "password"]

/-- ASCII lowering of a character list, modelling `strings.ToLower` on the
ASCII header/body constants the program compares against. -/
def lowerChars (l : List Char) : List Char := l.map Char.toLower

/-- `strings.Contains hay needle`, on character lists: a decidable
contiguous-substring test. -/
def charsContain (hay needle : List Char) : Bool := decide (needle <:+: hay)

/-- `isSensitiveHeader` (src/middleware/logging.go:95-111): case-insensitive
substring match against the five-element list. -/
def isSensitiveHeader (headerName : String) : Bool :=
  sensitiveHeaders.any (fun sens =>
    charsContain (lowerChars headerName.toList) sens.toList)

/-- The value logged for one header (src/middleware/logging.go:50-58):
the values joined with ", ", or the fixed redaction marker. -/
def loggedHeaderValue (name : String) (values : List String) : String :=
  if isSensitiveHeader name then "[REDACTED]" else String.intercalate ", " values

/-- The six substrings of `containsSensitiveData`
(src/middleware/logging.go:115-122). -/
def sensitiveFields : List String :=
  ["password", "token", "secret", "key", "auth", "credential"]

/-- `containsSensitiveData` (src/middleware/logging.go:114-131), on the raw
body characters. -/
def containsSensitiveData (body : List Char) : Bool :=
  sensitiveFields.any (fun sens => charsContain (lowerChars body) sens.toList)

/-- The `... [TRUNCATED]` marker appended at the 1000-character budget. -/
def truncMarker : List Char := "... [TRUNCATED]".toList

/-- The `request_body` log field (src/middleware/logging.go:70-83): `none`
for an empty body; otherwise the body is truncated at 1000 characters first
and the sensitive-data scan runs on the truncated text. -/
def loggedRequestBody (bodyBytes : List Char) : Option (List Char) :=
  if bodyBytes.length > 0 then
    let bodyStr := bodyBytes
    let bodyStr := if bodyStr.length > 1000 then bodyStr.take 1000 ++ truncMarker else bodyStr
    if containsSensitiveData bodyStr then some "[CONTAINS SENSITIVE DATA]".toList
    else some bodyStr
  else none

/-! ## RabbitMQ publisher (src/messaging/rabbitmq.go) -/

/-- One value of the `map[string]interface{}` event body. -/
inductive FieldValue (α : Type) where
  | str (s : String)
  | nat (n : Nat)
  | payload (d : α)
  deriving Repr, DecidableEq

/-- A message as handed to `PublishJSON`: routing key, content type and the
JSON object fields. -/
structure PublishedMessage (α : Type) where
  routingKey : String
  contentType : String
  fields : List (String × FieldValue α)
  deriving Repr, DecidableEq

/-- `PublishUserEvent` (src/messaging/rabbitmq.go:99-110): routing key
`user.{eventType}`, body `{event_type, user_id, data, timestamp}` with the
timestamp rendered as a decimal unix-time string. -/
def PublishUserEvent (eventType : String) (userID : Nat) (data : α) (now : Nat) :
    PublishedMessage α :=
  { routingKey := "user." ++ eventType
    contentType := "application/json"
    fields :=
      [("event_type", .str eventType), ("user_id", .nat userID),
       ("data", .payload data), ("timestamp", .str (toString now))] }

/-- `PublishSystemEvent` (src/messaging/rabbitmq.go:113-123): routing key
`system.{eventType}`, body `{event_type, data, timestamp}`. -/
def PublishSystemEvent (eventType : String) (data : α) (now : Nat) :
    PublishedMessage α :=
  { routingKey := "system." ++ eventType
    contentType := "application/json"
    fields :=
      [("event_type", .str eventType), ("data", .payload data),
       ("timestamp", .str (toString now))] }

/-! ## Helper lemmas -/

/-- `UpdateFromDTO` written as a single record update: each string field is
patched exactly when the request carries a non-empty value, `isActive`
exactly when the pointer is non-nil. -/
theorem User.updateFromDTO_spec (u : User) (req : UpdateUserRequest) :
    u.updateFromDTO req =
      { u with
        username := if req.username ≠ "" then req.username else u.username
        email := if req.email ≠ "" then req.email else u.email
        firstName := if req.firstName ≠ "" then req.firstName else u.firstName
        lastName := if req.lastName ≠ "" then req.lastName else u.lastName
        isActive := req.isActive.getD u.isActive } := by
  unfold User.updateFromDTO
  cases req.isActive <;> split_ifs <;> rfl

/-- An update patch never touches the primary key. -/
theorem User.updateFromDTO_id (u : User) (req : UpdateUserRequest) :
    (u.updateFromDTO req).id = u.id := by rw [User.updateFromDTO_spec]

/-- A row returned by `First` carries the requested id and is live. -/
theorem DBState.first_some {db : DBState} {id : Nat} {u : User}
    (h : db.first id = some u) : u.id = id ∧ u.deletedAt = none := by
  unfold DBState.first at h
  have hp := List.find?_some h
  simp at hp
  exact hp

/-- After a soft delete of `id`, `First` no longer finds a live row. -/
theorem DBState.first_softDelete (db : DBState) (now id : Nat) :
    (db.softDelete now id).first id = none := by
  unfold DBState.first DBState.softDelete
  rw [List.find?_eq_none]
  intro u hu
  simp only [List.mem_map] at hu
  obtain ⟨r, hr, hfr⟩ := hu
  by_cases hc : (r.id == id && r.deletedAt.isNone) = true
  · rw [if_pos hc] at hfr
    subst hfr
    simp
  · rw [if_neg hc] at hfr
    subst hfr
    exact hc

/-- A cache write is immediately readable under its own key. -/
theorem Cache.get_set_same (c : CacheState) (k : String) (v : User) (t : Nat) :
    Cache.get (Cache.set c k v t) k = some v := by
  simp [Cache.get, Cache.set, List.find?]

/-- A deleted cache key reads as absent. -/
theorem Cache.get_delete_same (c : CacheState) (k : String) :
    Cache.get (Cache.delete c k) k = none := by
  simp [Cache.get, Cache.delete]

/-- Go's `(i + p - 1) / p` on nonnegative `int64` is the rational ceiling of
`i / p`. -/
theorem tdiv_ceil (p i : Int) (hp : 1 ≤ p) (hi : 0 ≤ i) :
    Int.tdiv (i + p - 1) p = ⌈(i : ℚ) / (p : ℚ)⌉ := by
  obtain ⟨pn, rfl⟩ := Int.eq_ofNat_of_zero_le (show (0:Int) ≤ p by linarith)
  obtain ⟨im, rfl⟩ := Int.eq_ofNat_of_zero_le hi
  have hpn : 1 ≤ pn := by exact_mod_cast hp
  have hcast : ((im + pn - 1 : Nat) : Int) = (im : Int) + (pn : Int) - 1 := by omega
  rw [← hcast, ← Int.ofNat_tdiv]
  have hq := Nat.div_add_mod (im + pn - 1) pn
  have hr := Nat.mod_lt (im + pn - 1) (show 0 < pn by omega)
  have h1 : im ≤ pn * ((im + pn - 1) / pn) := by omega
  have h2 : pn * ((im + pn - 1) / pn) + 1 ≤ im + pn := by omega
  generalize (im + pn - 1) / pn = q at h1 h2 ⊢
  have h1q : (im : ℚ) ≤ (pn : ℚ) * (q : ℚ) := by exact_mod_cast h1
  have h2q : (pn : ℚ) * (q : ℚ) + 1 ≤ (im : ℚ) + (pn : ℚ) := by exact_mod_cast h2
  have hpQ : (0 : ℚ) < (pn : ℚ) := by exact_mod_cast (show 0 < pn by omega)
  rw [eq_comm, Int.ceil_eq_iff]
  push_cast
  constructor
  · rw [lt_div_iff₀ hpQ]
    nlinarith [h2q]
  · rw [div_le_iff₀ hpQ]
    linarith [h1q]

/-- `wrap64` is the identity on values already in the `int64` range. -/
theorem wrap64_eq_self {x : Int} (h1 : -(2 ^ 63) ≤ x) (h2 : x < 2 ^ 63) : wrap64 x = x := by
  unfold wrap64
  rw [Int.emod_eq_of_lt (by omega) (by omega)]
  omega

/-- For nonnegative `i` and positive `p`, the ceiling-division numerator
trick stays within `[0, i]`, so it cannot overflow once the sum fits. -/
theorem tdiv_ceil_bounds (p i : Int) (hp : 1 ≤ p) (hi : 0 ≤ i) :
    0 ≤ Int.tdiv (i + p - 1) p ∧ Int.tdiv (i + p - 1) p ≤ i := by
  obtain ⟨pn, rfl⟩ := Int.eq_ofNat_of_zero_le (show (0:Int) ≤ p by linarith)
  obtain ⟨im, rfl⟩ := Int.eq_ofNat_of_zero_le hi
  have hpn : 1 ≤ pn := by exact_mod_cast hp
  have hcast : ((im + pn - 1 : Nat) : Int) = (im : Int) + (pn : Int) - 1 := by omega
  rw [← hcast, ← Int.ofNat_tdiv]
  have hlt : (im + pn - 1) / pn < im + 1 := by
    rw [Nat.div_lt_iff_lt_mul (show 0 < pn by omega), Nat.succ_mul]
    have him : im ≤ im * pn := Nat.le_mul_of_pos_right im (by omega)
    omega
  constructor
  · exact_mod_cast Nat.zero_le _
  · exact_mod_cast Nat.lt_succ_iff.mp hlt

/-- A pattern with a character the haystack lacks is not contained in it. -/
theorem charsContain_eq_false {hay pat : List Char} (c : Char) (hc : c ∈ pat)
    (hn : c ∉ hay) : charsContain hay pat = false := by
  simp only [charsContain, decide_eq_false_iff_not]
  exact fun h => hn (h.subset hc)

/-- Characters other than `'a'` and those of the lowered marker are absent
from a truncated all-`'a'` body. -/
theorem not_mem_truncatedRun {c : Char} (h1 : c ≠ 'a')
    (h2 : c ∉ ("... [truncated]".toList)) :
    c ∉ List.replicate 1000 'a' ++ "... [truncated]".toList := by
  intro hmem
  rcases List.mem_append.mp hmem with h | h
  · exact h1 (List.eq_of_mem_replicate h)
  · exact h2 h

/-! ## Sample data for witnesses -/

/-- A concrete stored user. -/
def sampleUser : User :=
  { id := 1, username := "alice", email := "alice@example.com"
    password := "hashedpw", firstName := "A", lastName := "B"
    isActive := true, createdAt := 5, updatedAt := 5, deletedAt := none }

/-- A service state holding `sampleUser` and an empty cache. -/
def sampleState : SState :=
  { db := { rows := [sampleUser], nextId := 2 }, cache := [] }

/-- A patch that changes only the first name. -/
def samplePatch : UpdateUserRequest :=
  { username := "", email := "", firstName := "Z", lastName := "", isActive := none }

/-! ## Claims -/

/-- C1: for every user id present in the store, after a successful
`UpdateUser` an immediately following `GetUserByID` returns the patched
value, served from the freshly overwritten cache entry (the state is
unchanged by the read, so the read is a cache hit on the new value, never
the pre-update copy). -/
theorem updateUser_then_get (now : Nat) (st : SState) (id : Nat) (req : UpdateUserRequest)
    (st' : SState) (resp : UserResponse)
    (h : UpdateUser false now st id req = (st', .ok resp)) :
    GetUserByID st' id = (st', .ok resp) ∧
    ∃ u : User, Cache.get st'.cache (userKey id) = some u ∧ u.toDTO = resp := by
  unfold UpdateUser at h
  cases hfirst : st.db.first id with
  | none =>
    rw [hfirst] at h
    simp at h
  | some user =>
    rw [hfirst] at h
    simp only [Bool.false_eq_true, if_false, DBState.save, Prod.mk.injEq, Except.ok.injEq] at h
    obtain ⟨h1, h2⟩ := h
    subst h1
    subst h2
    have hid : ({ user.updateFromDTO req with updatedAt := now } : User).id = id := by
      have hr : ({ user.updateFromDTO req with updatedAt := now } : User).id
          = (user.updateFromDTO req).id := rfl
      rw [hr, User.updateFromDTO_id]
      exact (DBState.first_some hfirst).1
    constructor
    · unfold GetUserByID
      dsimp only
      rw [hid, Cache.get_set_same]
    · refine ⟨_, ?_, rfl⟩
      dsimp only
      rw [hid, Cache.get_set_same]

/-- C1 witness: updating `sampleUser`'s first name and reading it back. -/
theorem updateUser_then_get_witness :
    GetUserByID (UpdateUser false 9 sampleState 1 samplePatch).1 1
      = ((UpdateUser false 9 sampleState 1 samplePatch).1,
        .ok { id := 1, username := "alice", email := "alice@example.com"
              firstName := "Z", lastName := "B", isActive := true
              createdAt := 5, updatedAt := 9 }) :=
  (updateUser_then_get 9 sampleState 1 samplePatch _ _ rfl).1

/-- C3: on the failure and not-found paths the cache is untouched: a failed
store create writes no cache entry, a store not-found on read caches
nothing, and a failed store delete leaves the cache entry in place. -/
theorem failure_paths_leave_cache (hash : String → String) (now : Nat) (st : SState)
    (req : CreateUserRequest) (id : Nat) (e : String) :
    ((CreateUser hash true now st req).1.cache = st.cache) ∧
    ((GetUserByID st id).2 = .error e → (GetUserByID st id).1.cache = st.cache) ∧
    ((DeleteUser true now st id).1.cache = st.cache) := by
  refine ⟨rfl, ?_, ?_⟩
  · intro herr
    unfold GetUserByID at herr ⊢
    dsimp only at herr ⊢
    cases hget : Cache.get st.cache (userKey id) with
    | some u =>
      rw [hget] at herr
    | none =>
      rw [hget] at herr
      cases hfirst : st.db.first id with
      | none => rfl
      | some u =>
        rw [hfirst] at herr
        exact Except.noConfusion herr
  · unfold DeleteUser
    cases hfirst : st.db.first id <;> simp

/-- C3 witness: a failing create, a not-found read and a failing delete on
the sample state, each leaving the cache as it was. -/
theorem failure_paths_leave_cache_witness :
    ((CreateUser (fun s => s) true 0 sampleState
        { username := "bob", email := "b@c.d", password := "pw"
          firstName := "", lastName := "" }).1.cache = sampleState.cache) ∧
    ((GetUserByID sampleState 7).1.cache = sampleState.cache) ∧
    ((DeleteUser true 0 sampleState 1).1.cache = sampleState.cache) :=
  ⟨(failure_paths_leave_cache (fun s => s) 0 sampleState
      { username := "bob", email := "b@c.d", password := "pw"
        firstName := "", lastName := "" } 7 "user not found").1,
   (failure_paths_leave_cache (fun s => s) 0 sampleState
      { username := "bob", email := "b@c.d", password := "pw"
        firstName := "", lastName := "" } 7 "user not found").2.1 rfl,
   (failure_paths_leave_cache (fun s => s) 0 sampleState
      { username := "bob", email := "b@c.d", password := "pw"
        firstName := "", lastName := "" } 1 "user not found").2.2⟩

/-- C4: after a successful `DeleteUser`, a following `GetUserByID` reports
not-found and the user's cache key is absent: the store soft delete is
followed by deletion of the cache entry. -/
theorem deleteUser_then_get (now : Nat) (st : SState) (id : Nat) (st' : SState)
    (h : DeleteUser false now st id = (st', .ok ())) :
    GetUserByID st' id = (st', .error "user not found") ∧
    Cache.get st'.cache (userKey id) = none := by
  unfold DeleteUser at h
  cases hfirst : st.db.first id with
  | none =>
    rw [hfirst] at h
    simp at h
  | some user =>
    rw [hfirst] at h
    simp only [Bool.false_eq_true, if_false, Prod.mk.injEq] at h
    obtain ⟨h1, _⟩ := h
    subst h1
    refine ⟨?_, Cache.get_delete_same _ _⟩
    unfold GetUserByID
    dsimp only
    rw [Cache.get_delete_same, DBState.first_softDelete]

/-- C4 witness: deleting `sampleUser` and reading it back. -/
theorem deleteUser_then_get_witness :
    GetUserByID (DeleteUser false 3 sampleState 1).1 1
      = ((DeleteUser false 3 sampleState 1).1, .error "user not found") :=
  (deleteUser_then_get 3 sampleState 1 _ rfl).1

/-- C2 (corrected): the pagination formulas hold on the overflow-free part
of the claimed range — for `currentPage ≥ 1`, `perPage ∈ 1..100`,
`totalItems ≥ 0` AND `totalItems + perPage - 1 < 2^63` (so the `int64` sum
does not wrap), `NewPaginationMeta` computes
`totalPages = ⌈totalItems / perPage⌉`,
`hasNextPage = (currentPage < totalPages)` and
`hasPrevPage = (currentPage > 1)`; in particular 47 items at 10 per page
give 5 pages with page 5 having no next but a previous page, and 0 items
give 0 pages with both flags false. -/
theorem newPaginationMeta_spec (currentPage perPage totalItems : Int)
    (hcp : 1 ≤ currentPage) (hpp1 : 1 ≤ perPage) (hpp2 : perPage ≤ 100)
    (hti : 0 ≤ totalItems) (hnof : totalItems + perPage - 1 < 2 ^ 63) :
    ((NewPaginationMeta currentPage perPage totalItems).totalPages
        = ⌈(totalItems : ℚ) / (perPage : ℚ)⌉ ∧
      (NewPaginationMeta currentPage perPage totalItems).hasNextPage
        = decide (currentPage < ⌈(totalItems : ℚ) / (perPage : ℚ)⌉) ∧
      (NewPaginationMeta currentPage perPage totalItems).hasPrevPage
        = decide (1 < currentPage)) ∧
    NewPaginationMeta 5 10 47
      = { currentPage := 5, perPage := 10, totalPages := 5, totalItems := 47
          hasNextPage := false, hasPrevPage := true } ∧
    ((NewPaginationMeta 1 perPage 0).totalPages = 0 ∧
      (NewPaginationMeta 1 perPage 0).hasNextPage = false ∧
      (NewPaginationMeta 1 perPage 0).hasPrevPage = false) := by
  have hwin : wrap64 (totalItems + perPage - 1) = totalItems + perPage - 1 :=
    wrap64_eq_self (by omega) hnof
  have hbounds := tdiv_ceil_bounds perPage totalItems hpp1 hti
  have hwq : wrap64 (Int.tdiv (totalItems + perPage - 1) perPage)
      = Int.tdiv (totalItems + perPage - 1) perPage :=
    wrap64_eq_self (by omega) (by omega)
  have hmain : (NewPaginationMeta currentPage perPage totalItems).totalPages
      = ⌈(totalItems : ℚ) / (perPage : ℚ)⌉ := by
    show wrap64 (Int.tdiv (wrap64 (totalItems + perPage - 1)) perPage) = _
    rw [hwin, hwq, tdiv_ceil perPage totalItems hpp1 hti]
  have hwin0 : wrap64 ((0 : Int) + perPage - 1) = (0 : Int) + perPage - 1 :=
    wrap64_eq_self (by omega) (by omega)
  have h00 : Int.tdiv ((0 : Int) + perPage - 1) perPage = 0 := by
    rw [tdiv_ceil perPage 0 hpp1 le_rfl]
    simp
  have h0' : (NewPaginationMeta 1 perPage 0).totalPages = 0 := by
    show wrap64 (Int.tdiv (wrap64 ((0 : Int) + perPage - 1)) perPage) = 0
    rw [hwin0, h00]
    decide
  refine ⟨⟨hmain, ?_, rfl⟩, by decide, h0', ?_,
    show decide ((1 : Int) > 1) = false from by decide⟩
  · show decide
        (currentPage < wrap64 (Int.tdiv (wrap64 (totalItems + perPage - 1)) perPage)) = _
    rw [hwin, hwq, tdiv_ceil perPage totalItems hpp1 hti]
  · show decide
        ((1 : Int) < wrap64 (Int.tdiv (wrap64 ((0 : Int) + perPage - 1)) perPage)) = false
    rw [hwin0, h00]
    decide

/-- C2 witness: the formulas at page 3 of 47 items, 10 per page. -/
theorem newPaginationMeta_spec_witness :
    (NewPaginationMeta 3 10 47).totalPages = ⌈((47 : Int) : ℚ) / ((10 : Int) : ℚ)⌉ :=
  ((newPaginationMeta_spec 3 10 47 (by decide) (by decide) (by decide) (by decide)
    (by decide)).1).1

/-- C2 counterexample: at `totalItems = 2^63 - 1` (inside the claimed range
`totalItems ≥ 0`, `perPage = 10 ∈ 1..100`, `currentPage = 1`) the Go `int64`
sum `totalItems + perPage - 1` wraps negative, so `totalPages` is the huge
negative `-922337203685477580`, not `⌈totalItems / perPage⌉` — refuting the
claim over its full stated range. -/
theorem newPaginationMeta_counterexample :
    ((1 : Int) ≤ 1 ∧ (1 : Int) ≤ 10 ∧ (10 : Int) ≤ 100 ∧
      (0 : Int) ≤ 9223372036854775807) ∧
    (NewPaginationMeta 1 10 9223372036854775807).totalPages = -922337203685477580 ∧
    (NewPaginationMeta 1 10 9223372036854775807).totalPages
      ≠ ⌈((9223372036854775807 : Int) : ℚ) / ((10 : Int) : ℚ)⌉ := by
  have hval : (NewPaginationMeta 1 10 9223372036854775807).totalPages
      = -922337203685477580 := by decide
  refine ⟨by decide, hval, ?_⟩
  rw [hval]
  intro hcontra
  have hpos : (0 : Int) < ⌈((9223372036854775807 : Int) : ℚ) / ((10 : Int) : ℚ)⌉ := by
    rw [Int.ceil_pos]
    positivity
  omega

/-- C9 (implicit): an update patch cannot clear a string attribute — an
empty `username`/`email`/`firstName`/`lastName` in the request leaves the
stored field unchanged, only the nullable `isActive` pointer can set its
zero value, and the fields the patch never mentions (id, password,
timestamps, soft-delete marker) are always unchanged. -/
theorem updateFromDTO_frame (u : User) (req : UpdateUserRequest) :
    ((u.updateFromDTO req).id = u.id ∧
      (u.updateFromDTO req).password = u.password ∧
      (u.updateFromDTO req).createdAt = u.createdAt ∧
      (u.updateFromDTO req).updatedAt = u.updatedAt ∧
      (u.updateFromDTO req).deletedAt = u.deletedAt) ∧
    (req.username = "" → (u.updateFromDTO req).username = u.username) ∧
    (req.email = "" → (u.updateFromDTO req).email = u.email) ∧
    (req.firstName = "" → (u.updateFromDTO req).firstName = u.firstName) ∧
    (req.lastName = "" → (u.updateFromDTO req).lastName = u.lastName) ∧
    (req.isActive = none → (u.updateFromDTO req).isActive = u.isActive) ∧
    (∀ b, req.isActive = some b → (u.updateFromDTO req).isActive = b) := by
  rw [User.updateFromDTO_spec]
  refine ⟨⟨rfl, rfl, rfl, rfl, rfl⟩, ?_, ?_, ?_, ?_, ?_, ?_⟩
  · intro h
    simp [h]
  · intro h
    simp [h]
  · intro h
    simp [h]
  · intro h
    simp [h]
  · intro h
    simp [h]
  · intro b h
    simp [h]

/-- C9 witness: the all-empty patch with a nil pointer leaves `sampleUser`
unchanged, and a `some false` pointer clears `isActive`. -/
theorem updateFromDTO_frame_witness :
    (sampleUser.updateFromDTO
        { username := "", email := "", firstName := "", lastName := ""
          isActive := none }).username = sampleUser.username ∧
    (sampleUser.updateFromDTO
        { username := "", email := "", firstName := "", lastName := ""
          isActive := some false }).isActive = false :=
  ⟨(updateFromDTO_frame sampleUser
      { username := "", email := "", firstName := "", lastName := ""
        isActive := none }).2.1 rfl,
   (updateFromDTO_frame sampleUser
      { username := "", email := "", firstName := "", lastName := ""
        isActive := some false }).2.2.2.2.2.2 false rfl⟩

/-- C10 (implicit): the password never flows to the public interface — two
`User` records that agree on every field except `password` have identical
`ToDTO` images, so no response derived from `ToDTO` depends on or reveals
the stored hash. -/
theorem toDTO_password_noninterference (u v : User)
    (h : u.id = v.id ∧ u.username = v.username ∧ u.email = v.email ∧
      u.firstName = v.firstName ∧ u.lastName = v.lastName ∧
      u.isActive = v.isActive ∧ u.createdAt = v.createdAt ∧
      u.updatedAt = v.updatedAt ∧ u.deletedAt = v.deletedAt) :
    u.toDTO = v.toDTO := by
  obtain ⟨h1, h2, h3, h4, h5, h6, h7, h8, h9⟩ := h
  simp [User.toDTO, h1, h2, h3, h4, h5, h6, h7, h8]

/-- C10 witness: `sampleUser` with a different stored hash produces the
same public payload. -/
theorem toDTO_password_noninterference_witness :
    sampleUser.toDTO = ({ sampleUser with password := "otherhash" } : User).toDTO :=
  toDTO_password_noninterference sampleUser { sampleUser with password := "otherhash" }
    ⟨rfl, rfl, rfl, rfl, rfl, rfl, rfl, rfl, rfl⟩

/-- C5 (corrected): a header value is logged as "[REDACTED]" exactly when
the lowercased header name contains one of the FIVE substrings
`authorization, cookie, x-api-key, x-auth-token, password` (the ten-element
list of the claim is the union of the header list and the body list; the
header check uses only these five); all other headers keep their original
joined values. -/
theorem header_redaction_spec (name : String) (values : List String) :
    (isSensitiveHeader name = true ↔
      ∃ sens ∈ ["authorization", "cookie", "x-api-key", "x-auth-token", "password"],
        String.toList sens <:+: lowerChars name.toList) ∧
    (isSensitiveHeader name = true → loggedHeaderValue name values = "[REDACTED]") ∧
    (isSensitiveHeader name = false →
      loggedHeaderValue name values = String.intercalate ", " values) := by
  refine ⟨?_, ?_, ?_⟩
  · simp [isSensitiveHeader, sensitiveHeaders, charsContain, List.any_eq_true]
  · intro h
    simp [loggedHeaderValue, h]
  · intro h
    simp [loggedHeaderValue, h]

/-- C5 witness: the `Authorization` header is redacted. -/
theorem header_redaction_spec_witness :
    loggedHeaderValue "Authorization" ["Bearer abc123"] = "[REDACTED]" :=
  (header_redaction_spec "Authorization" ["Bearer abc123"]).2.1 (by decide)

/-- C5 counterexample: the header name `X-Secret` contains the claimed
sensitive substring "secret" yet is logged with its original value, so
redaction does not cover the full ten-substring list. -/
theorem header_redaction_counterexample :
    charsContain (lowerChars "X-Secret".toList) "secret".toList = true ∧
    isSensitiveHeader "X-Secret" = false ∧
    loggedHeaderValue "X-Secret" ["swordfish"] = "swordfish" ∧
    loggedHeaderValue "X-Secret" ["swordfish"] ≠ "[REDACTED]" := by
  refine ⟨by decide, by decide, ?_, ?_⟩
  · show (if isSensitiveHeader "X-Secret" then "[REDACTED]"
      else String.intercalate ", " ["swordfish"]) = "swordfish"
    rw [if_neg (by decide)]
    rfl
  · show (if isSensitiveHeader "X-Secret" then "[REDACTED]"
      else String.intercalate ", " ["swordfish"]) ≠ "[REDACTED]"
    rw [if_neg (by decide)]
    decide

/-- C6 (corrected): the body is truncated to 1000 characters (plus marker)
BEFORE the sensitive-data scan, so the whole-body "[CONTAINS SENSITIVE
DATA]" marker is produced exactly when the TRUNCATED text contains a
sensitive substring; a sensitive substring lying entirely beyond the
1000-character budget is not detected. -/
theorem body_redaction_spec (body : List Char) (hne : body.length > 0) :
    ((∃ sens ∈ ["password", "token", "secret", "key", "auth", "credential"],
        String.toList sens <:+:
          lowerChars (if body.length > 1000 then body.take 1000 ++ truncMarker else body)) →
      loggedRequestBody body = some "[CONTAINS SENSITIVE DATA]".toList) ∧
    ((¬ ∃ sens ∈ ["password", "token", "secret", "key", "auth", "credential"],
        String.toList sens <:+:
          lowerChars (if body.length > 1000 then body.take 1000 ++ truncMarker else body)) →
      loggedRequestBody body
        = some (if body.length > 1000 then body.take 1000 ++ truncMarker else body)) ∧
    (body.length > 1000 →
      loggedRequestBody body = some "[CONTAINS SENSITIVE DATA]".toList ∨
      loggedRequestBody body = some (body.take 1000 ++ truncMarker)) := by
  have hiff : containsSensitiveData
      (if body.length > 1000 then body.take 1000 ++ truncMarker else body) = true ↔
      ∃ sens ∈ ["password", "token", "secret", "key", "auth", "credential"],
        String.toList sens <:+:
          lowerChars (if body.length > 1000 then body.take 1000 ++ truncMarker else body) := by
    simp [containsSensitiveData, sensitiveFields, charsContain, List.any_eq_true]
  unfold loggedRequestBody
  rw [if_pos hne]
  refine ⟨?_, ?_, ?_⟩
  · intro hex
    rw [if_pos (hiff.mpr hex)]
  · intro hnex
    rw [if_neg (fun hc => hnex (hiff.mp hc))]
  · intro hlong
    by_cases hs : containsSensitiveData
        (if body.length > 1000 then body.take 1000 ++ truncMarker else body) = true
    · left
      rw [if_pos hs]
    · right
      rw [if_neg hs, if_pos hlong]

/-- C6 witness: a short body containing "password" is wholly replaced. -/
theorem body_redaction_spec_witness :
    loggedRequestBody "pw=hunter2&password=x".toList
      = some "[CONTAINS SENSITIVE DATA]".toList :=
  (body_redaction_spec "pw=hunter2&password=x".toList (by decide)).1
    ⟨"password", by decide, by decide⟩

/-- A 1008-character body whose only sensitive substring lies entirely past
the 1000-character truncation budget. -/
def overlongBody : List Char := List.replicate 1000 'a' ++ "password".toList

/-- The truncated all-`'a'` text contains none of the six sensitive
substrings. -/
theorem overlong_nosens :
    containsSensitiveData (List.replicate 1000 'a' ++ truncMarker) = false := by
  unfold containsSensitiveData sensitiveFields
  rw [show lowerChars (List.replicate 1000 'a' ++ truncMarker)
      = List.replicate 1000 'a' ++ "... [truncated]".toList from by
    unfold lowerChars truncMarker
    rw [List.map_append, List.map_replicate]
    rw [show Char.toLower 'a' = 'a' from rfl]
    rw [show List.map Char.toLower "... [TRUNCATED]".toList
        = "... [truncated]".toList from rfl]]
  simp only [List.any_cons, List.any_nil, Bool.or_eq_false_iff]
  refine ⟨?_, ?_, ?_, ?_, ?_, ?_, trivial⟩
  · exact charsContain_eq_false 'p' (by decide) (not_mem_truncatedRun (by decide) (by decide))
  · exact charsContain_eq_false 'k' (by decide) (not_mem_truncatedRun (by decide) (by decide))
  · exact charsContain_eq_false 's' (by decide) (not_mem_truncatedRun (by decide) (by decide))
  · exact charsContain_eq_false 'k' (by decide) (not_mem_truncatedRun (by decide) (by decide))
  · exact charsContain_eq_false 'h' (by decide) (not_mem_truncatedRun (by decide) (by decide))
  · exact charsContain_eq_false 'l' (by decide) (not_mem_truncatedRun (by decide) (by decide))

/-- `overlongBody` has 1008 characters. -/
theorem overlong_len : overlongBody.length = 1008 := by
  unfold overlongBody
  rw [List.length_append, List.length_replicate]
  rfl

/-- C6 counterexample: `overlongBody` contains the sensitive substring
"password", yet its logged form is the truncated text, not the
"[CONTAINS SENSITIVE DATA]" marker — the scan misses matter beyond the
truncation budget, refuting the claim as stated. -/
theorem body_redaction_counterexample :
    overlongBody.length > 0 ∧
    ("password".toList <:+: lowerChars overlongBody) ∧
    loggedRequestBody overlongBody = some (List.replicate 1000 'a' ++ truncMarker) ∧
    loggedRequestBody overlongBody ≠ some "[CONTAINS SENSITIVE DATA]".toList := by
  have hlen := overlong_len
  have hgt0 : overlongBody.length > 0 := by rw [hlen]; decide
  have hgt1000 : overlongBody.length > 1000 := by rw [hlen]; decide
  have htake : overlongBody.take 1000 = List.replicate 1000 'a' := by
    unfold overlongBody
    exact List.take_left' (List.length_replicate 1000 'a')
  have hlog : loggedRequestBody overlongBody
      = some (List.replicate 1000 'a' ++ truncMarker) := by
    unfold loggedRequestBody
    dsimp only
    rw [if_pos hgt0, if_pos hgt1000, htake, overlong_nosens]
    rfl
  refine ⟨hgt0, ?_, hlog, ?_⟩
  · unfold overlongBody lowerChars
    rw [List.map_append, List.map_replicate]
    rw [show Char.toLower 'a' = 'a' from rfl]
    rw [show List.map Char.toLower "password".toList = "password".toList from rfl]
    exact ⟨List.replicate 1000 'a', [], by rw [List.append_nil]⟩
  · rw [hlog]
    intro hcontra
    have hlen2 := congrArg (fun o : Option (List Char) => (o.getD []).length) hcontra
    simp only [Option.getD_some, List.length_append, List.length_replicate] at hlen2
    rw [show truncMarker.length = 15 from rfl,
      show ("[CONTAINS SENSITIVE DATA]".toList).length = 25 from rfl] at hlen2
    omega

/-- C7 (corrected): the wrappers route as `{category}.{eventType}` with
JSON content type and wrap the payload with event type, emission timestamp
and — for user events only — the subject id, but the subject-id field is
named `user_id` (not `subject_id`) and system events carry no subject field
at all. -/
theorem publish_wrappers_spec {α : Type} (eventType : String) (userID : Nat)
    (d : α) (now : Nat) :
    ((PublishUserEvent eventType userID d now).routingKey = "user." ++ eventType ∧
      (PublishUserEvent eventType userID d now).contentType = "application/json" ∧
      (PublishUserEvent eventType userID d now).fields =
        [("event_type", .str eventType), ("user_id", .nat userID),
         ("data", .payload d), ("timestamp", .str (toString now))] ∧
      (PublishUserEvent eventType userID d now).fields.map Prod.fst
        = ["event_type", "user_id", "data", "timestamp"]) ∧
    ((PublishSystemEvent eventType d now).routingKey = "system." ++ eventType ∧
      (PublishSystemEvent eventType d now).contentType = "application/json" ∧
      (PublishSystemEvent eventType d now).fields =
        [("event_type", .str eventType), ("data", .payload d),
         ("timestamp", .str (toString now))] ∧
      (PublishSystemEvent eventType d now).fields.map Prod.fst
        = ["event_type", "data", "timestamp"]) :=
  ⟨⟨rfl, rfl, rfl, rfl⟩, ⟨rfl, rfl, rfl, rfl⟩⟩

/-- C7 counterexample: the `user.created` message's field names are
`event_type, user_id, data, timestamp` — there is no `subject_id` field,
and the system event has no subject field at all, refuting the claimed
exact field set `{event_type, subject_id, data, timestamp}`. -/
theorem publish_wrappers_counterexample :
    ((PublishUserEvent "created" 1 (0 : Nat) 0).routingKey = "user.created") ∧
    ((PublishUserEvent "created" 1 (0 : Nat) 0).fields.map Prod.fst
        = ["event_type", "user_id", "data", "timestamp"]) ∧
    ((PublishUserEvent "created" 1 (0 : Nat) 0).fields.map Prod.fst
        ≠ ["event_type", "subject_id", "data", "timestamp"]) ∧
    ("subject_id" ∉ (PublishUserEvent "created" 1 (0 : Nat) 0).fields.map Prod.fst) ∧
    ((PublishSystemEvent "health_check" (0 : Nat) 0).fields.map Prod.fst
        = ["event_type", "data", "timestamp"]) ∧
    ("subject_id" ∉ (PublishSystemEvent "health_check" (0 : Nat) 0).fields.map Prod.fst) := by
  refine ⟨rfl, rfl, by decide, by decide, rfl, by decide⟩

/-- C8 (corrected): every cache key the user service writes, reads or
deletes has the form `user:{id}` — the entity-type prefix is the literal
`user`, with no leading `entity:` segment — and every entry written on the
create, read-miss and update paths carries the fixed one-hour TTL. -/
theorem cacheKey_scheme_spec (hash : String → String) (b : Bool) (now : Nat)
    (st : SState) (req : CreateUserRequest) (id : Nat) (upd : UpdateUserRequest) :
    (∃ u : User, (CreateUser hash b now st req).1.cache = st.cache ∨
      (CreateUser hash b now st req).1.cache
        = Cache.set st.cache ("user:" ++ toString u.id) u oneHour) ∧
    (∃ u : User, (GetUserByID st id).1.cache = st.cache ∨
      (GetUserByID st id).1.cache
        = Cache.set st.cache ("user:" ++ toString id) u oneHour) ∧
    (∃ u : User, u.id = id ∧ ((UpdateUser b now st id upd).1.cache = st.cache ∨
      (UpdateUser b now st id upd).1.cache
        = Cache.set st.cache ("user:" ++ toString id) u oneHour)) ∧
    ((DeleteUser b now st id).1.cache = st.cache ∨
      (DeleteUser b now st id).1.cache = Cache.delete st.cache ("user:" ++ toString id)) := by
  refine ⟨?_, ?_, ?_, ?_⟩
  · cases b with
    | true => exact ⟨User.zero, Or.inl rfl⟩
    | false =>
      exact ⟨(st.db.create now
        { User.zero.fromCreateDTO req with password := hash req.password }).2, Or.inr rfl⟩
  · unfold GetUserByID
    dsimp only
    cases hget : Cache.get st.cache (userKey id) with
    | some u => exact ⟨User.zero, Or.inl rfl⟩
    | none =>
      cases hfirst : st.db.first id with
      | none => exact ⟨User.zero, Or.inl rfl⟩
      | some u => exact ⟨u, Or.inr rfl⟩
  · unfold UpdateUser
    dsimp only
    cases hfirst : st.db.first id with
    | none => exact ⟨{ User.zero with id := id }, rfl, Or.inl rfl⟩
    | some user =>
      cases b with
      | true => exact ⟨{ User.zero with id := id }, rfl, Or.inl rfl⟩
      | false =>
        have hid : ({ user.updateFromDTO upd with updatedAt := now } : User).id = id := by
          have hr : ({ user.updateFromDTO upd with updatedAt := now } : User).id
              = (user.updateFromDTO upd).id := rfl
          rw [hr, User.updateFromDTO_id]
          exact (DBState.first_some hfirst).1
        refine ⟨{ user.updateFromDTO upd with updatedAt := now }, hid, Or.inr ?_⟩
        dsimp only [DBState.save]
        rw [hid]
        rfl
  · unfold DeleteUser
    dsimp only
    cases hfirst : st.db.first id with
    | none => exact Or.inl rfl
    | some u =>
      cases b with
      | true => exact Or.inl rfl
      | false => exact Or.inr rfl

/-- C8 counterexample: creating the first user writes the single cache key
`user:1` (with the one-hour TTL), and `user:1` is not of the claimed shape
`entity:{entityType}:{id}`. -/
theorem cacheKey_scheme_counterexample :
    ((CreateUser (fun s => s) false 0 { db := { rows := [], nextId := 1 }, cache := [] }
        { username := "alice", email := "a@b.c", password := "pw"
          firstName := "", lastName := "" }).1.cache.map Prod.fst = ["user:1"]) ∧
    (∀ p ∈ (CreateUser (fun s => s) false 0 { db := { rows := [], nextId := 1 }, cache := [] }
        { username := "alice", email := "a@b.c", password := "pw"
          firstName := "", lastName := "" }).1.cache, p.2.ttl = oneHour) ∧
    ¬ ∃ t : String, ∃ n : Nat, "user:1" = "entity:" ++ t ++ ":" ++ toString n := by
  refine ⟨rfl, by decide, ?_⟩
  rintro ⟨t, n, h⟩
  have hl : (("user:1" : String)).data.head? = some 'u' := rfl
  rw [h] at hl
  have hr : ("entity:" ++ t ++ ":" ++ toString n).data.head? = some 'e' := by
    simp
  rw [hr] at hl
  exact absurd (Option.some.inj hl) (by decide)
